import Mathlib

/-!
Verification of the QSM per-region extraction pipeline
(`extract_qsm_per_region.py`).

Voxel values of a scalar volume are modelled as `Option ℚ`: `none` plays the
role of IEEE NaN (it is filtered out before any statistic, compares false
under `> 0`, `== 1`, `== 0`, and propagates through subtraction), `some q`
is an ordinary finite value.  Label volumes carry integers.  A volume is a
shape `(X, Y, Z)` together with a total data function; only coordinates
inside the shape are ever consulted.  NumPy boolean indexing
`scalar[mask]` is modelled by `boolIndex`, which fails (as NumPy raises
`IndexError`) when the shapes differ and otherwise gathers the selected
values in C order.
-/

/-- A scalar voxel value: `none` models NaN, `some q` a finite value. -/
abbrev Val := Option ℚ

/-- A scalar volume: shape `(X, Y, Z)` plus voxel data. -/
structure Volume where
  shape : ℕ × ℕ × ℕ
  data : ℕ → ℕ → ℕ → Val

/-- An integer-coded segmentation volume (FreeSurfer aseg labels). -/
structure LabelVolume where
  shape : ℕ × ℕ × ℕ
  data : ℕ → ℕ → ℕ → ℤ

/-- A boolean voxel-selection mask. -/
structure Mask where
  shape : ℕ × ℕ × ℕ
  data : ℕ → ℕ → ℕ → Bool

/-- All coordinates of a shape, in C (row-major) order, as NumPy
boolean indexing enumerates them. -/
def coordList (s : ℕ × ℕ × ℕ) : List (ℕ × ℕ × ℕ) :=
  (List.range s.1).flatMap fun x =>
    (List.range s.2.1).flatMap fun y =>
      (List.range s.2.2).map fun z => (x, y, z)

/-- `seg_data == seg_id`: equality mask on a label volume. -/
def equals (v : LabelVolume) (code : ℤ) : Mask :=
  { shape := v.shape
    data := fun x y z => decide (v.data x y z = code) }

/-- Slice-by-slice 2D binary erosion, as
`binary_erosion(mask[:, :, z])` with scipy defaults: one iteration,
4-connected cross structuring element, zero padding at the slice edges
(`border_value=0`), applied independently to every index along the third
axis.  A voxel survives iff it is selected, lies strictly inside the slice,
and all four in-plane neighbours are selected. -/
def erode2D (m : Mask) : Mask :=
  { shape := m.shape
    data := fun x y z =>
      decide (0 < x) && decide (x + 1 < m.shape.1) &&
      decide (0 < y) && decide (y + 1 < m.shape.2.1) &&
      m.data x y z &&
      m.data (x - 1) y z && m.data (x + 1) y z &&
      m.data x (y - 1) z && m.data x (y + 1) z }

/-- `v > 0` on a scalar volume; NaN compares false. -/
def gtZeroMask (v : Volume) : Mask :=
  { shape := v.shape
    data := fun x y z =>
      match v.data x y z with
      | some q => decide (0 < q)
      | none => false }

/-- `v == 1` on a scalar volume; NaN compares false. -/
def eqOneMask (v : Volume) : Mask :=
  { shape := v.shape
    data := fun x y z =>
      match v.data x y z with
      | some q => decide (q = 1)
      | none => false }

/-- `v == 0` on a scalar volume; NaN compares false. -/
def eqZeroMask (v : Volume) : Mask :=
  { shape := v.shape
    data := fun x y z =>
      match v.data x y z with
      | some q => decide (q = 0)
      | none => false }

/-- `np.logical_or` of two masks. -/
def maskOr (a b : Mask) : Mask :=
  { shape := a.shape
    data := fun x y z => a.data x y z || b.data x y z }

/-- `np.logical_and` of two masks. -/
def maskAnd (a b : Mask) : Mask :=
  { shape := a.shape
    data := fun x y z => a.data x y z && b.data x y z }

/-- The values of `v` at the selected voxels of `m`, in C order
(the payload of NumPy boolean indexing once shapes agree). -/
def maskedValues (v : Volume) (m : Mask) : List Val :=
  (coordList v.shape).filterMap fun c =>
    if m.data c.1 c.2.1 c.2.2 then some (v.data c.1 c.2.1 c.2.2) else none

/-- NumPy boolean indexing `v[m]`: raises (here: errors) when the mask
shape does not match the indexed array, before any value is gathered. -/
def boolIndex (v : Volume) (m : Mask) : Except String (List Val) :=
  if v.shape = m.shape then .ok (maskedValues v m)
  else .error "boolean index did not match indexed array"

/-- `values[~np.isnan(values)]`: drop NaN entries, keep finite ones. -/
def dropNaN (l : List Val) : List ℚ :=
  l.filterMap id

/-- `np.median` on a nonempty list: middle element of the sorted list, or
the average of the two middle elements for even length. -/
def npMedian (l : List ℚ) : ℚ :=
  let s := List.insertionSort (fun a b => a ≤ b) l
  if s.length % 2 = 1 then s.getD (s.length / 2) 0
  else (s.getD (s.length / 2 - 1) 0 + s.getD (s.length / 2) 0) / 2

/-- `np.median(values) if len(values) > 0 else np.nan`. -/
def regionStat (values : List ℚ) : Val :=
  if values.length > 0 then some (npMedian values) else none

/-- Subtraction of stored scalars, as Python float subtraction:
NaN propagates when either operand is NaN. -/
def subVal : Val → Val → Val
  | some a, some b => some (a - b)
  | _, _ => none

/-- The fixed base catalog `regions_dic`, in source order. -/
def regions_dic : List (ℤ × String) :=
  [(10, "Left-Thalamus-Proper"),
   (11, "Left-Caudate"),
   (12, "Left-Putamen"),
   (13, "Left-Pallidum"),
   (17, "Left-Hippocampus"),
   (18, "Left-Amygdala"),
   (26, "Left-Accumbens-area"),
   (49, "Right-Thalamus-Proper"),
   (50, "Right-Caudate"),
   (51, "Right-Putamen"),
   (52, "Right-Pallidum"),
   (53, "Right-Hippocampus"),
   (54, "Right-Amygdala"),
   (58, "Right-Accumbens-area")]

/-- The decoded input volumes of one invocation.  `lesions_mask = none`
models the case where `--lesions_mask` was not supplied or the path is not
a file (`os.path.isfile` false). -/
structure Inputs where
  seg_data : LabelVolume
  qsm_data : Volume
  sn_left_data : Volume
  sn_right_data : Volume
  qsm_mni_data : Volume
  lesions_mask : Option Volume

/-- One iteration of the base-region loop: erode the label-equality mask
slice-by-slice, sample the native-space QSM, drop NaN, median (NaN when
empty). -/
def baseRegion (inp : Inputs) (code : ℤ) : Except String Val :=
  match boolIndex inp.qsm_data (erode2D (equals inp.seg_data code)) with
  | .error e => .error e
  | .ok raw => .ok (regionStat (dropNaN raw))

/-- One substantia-nigra region: sample the MNI-space QSM where the SN
mask is positive, drop NaN, keep strictly positive values, median. -/
def snRegion (qsm_mni sn : Volume) : Except String Val :=
  match boolIndex qsm_mni (gtZeroMask sn) with
  | .error e => .error e
  | .ok raw => .ok (regionStat ((dropNaN raw).filter fun q => decide (0 < q)))

/-- The base-region loop over a catalog, accumulating `name → value`
pairs in catalog order. -/
def computeBase (inp : Inputs) : List (ℤ × String) → Except String (List (String × Val))
  | [] => .ok []
  | (code, name) :: rest =>
    match baseRegion inp code, computeBase inp rest with
    | .ok v, .ok tail => .ok ((name, v) :: tail)
    | .error e, _ => .error e
    | .ok _, .error e => .error e

/-- The whole extraction: base catalog, then SN_L / SN_R, then (only when a
lesion mask is supplied and exists) WMH, WM, WM_no_lesions and the two
derived differences, in that order. -/
def extract (inp : Inputs) : Except String (List (String × Val)) :=
  match computeBase inp regions_dic with
  | .error e => .error e
  | .ok base =>
    match snRegion inp.qsm_mni_data inp.sn_left_data with
    | .error e => .error e
    | .ok snL =>
      match snRegion inp.qsm_mni_data inp.sn_right_data with
      | .error e => .error e
      | .ok snR =>
        let part1 := base ++ [("SN_L", snL), ("SN_R", snR)]
        match inp.lesions_mask with
        | none => .ok part1
        | some wmh_data =>
          match boolIndex inp.qsm_data (eqOneMask wmh_data) with
          | .error e => .error e
          | .ok rawWmh =>
            let wmhVal := regionStat (dropNaN rawWmh)
            let wm_mask := maskOr (equals inp.seg_data 2) (equals inp.seg_data 41)
            match boolIndex inp.qsm_data wm_mask with
            | .error e => .error e
            | .ok rawWm =>
              let wmVal := regionStat (dropNaN rawWm)
              match boolIndex inp.qsm_data (maskAnd wm_mask (eqZeroMask wmh_data)) with
              | .error e => .error e
              | .ok rawWmNl =>
                let wmNlVal := regionStat (dropNaN rawWmNl)
                .ok (part1 ++
                  [("WMH", wmhVal), ("WM", wmVal), ("WM_no_lesions", wmNlVal),
                   ("Diff-WM", subVal wmVal wmhVal),
                   ("Diff-WM-no-lesions", subVal wmNlVal wmhVal)])

/-- CSV rendering of a stored scalar (`nan` for NaN, as Python prints). -/
def valToString : Val → String
  | none => "nan"
  | some q => toString q

/-- The CSV append block: `existing = none` models a path where
`os.path.isfile` is false (first-ever write: header row then data row);
`existing = some rows` models an existing file (append one data row,
no header, no validation of `rows`). -/
def appendOutput (existing : Option (List (List String))) (subject ses : ℤ)
    (result : List (String × Val)) : List (List String) :=
  let header := ["subject", "session"] ++ result.map Prod.fst
  let row := [toString subject, toString ses] ++ result.map fun p => valToString p.2
  match existing with
  | none => [header, row]
  | some rows => rows ++ [row]

/-! Concrete example inputs, used to witness the theorems below.  The
segmentation places label 10 on the 3×3 block `1 ≤ x, y ≤ 3` of the single
axial slice (so exactly the centre voxel `(2,2,0)` survives erosion) and
label 2 (left cerebral white matter) on the column `x = 0`; the native-space
QSM stores `10x + y`; the MNI-space QSM stores `x - 1` (so the SN masks cover
negative, zero and positive values); the lesion example marks voxel
`(0,0,0)`. -/

/-- Example segmentation volume. -/
def segEx : LabelVolume :=
  { shape := (5, 5, 1)
    data := fun x y _ =>
      if 1 ≤ x ∧ x ≤ 3 ∧ 1 ≤ y ∧ y ≤ 3 then 10
      else if x = 0 then 2 else 0 }

/-- Example native-space QSM volume, value `10 * x + y`. -/
def qsmEx : Volume :=
  { shape := (5, 5, 1)
    data := fun x y _ => some ((10 * x + y : ℕ) : ℚ) }

/-- Example MNI-space QSM volume, value `x - 1`. -/
def mniEx : Volume :=
  { shape := (3, 3, 1)
    data := fun x _ _ => some (((x : ℤ) - 1 : ℤ) : ℚ) }

/-- Example SN probability mask, positive everywhere. -/
def snMaskEx : Volume :=
  { shape := (3, 3, 1)
    data := fun _ _ _ => some 1 }

/-- Example lesion mask marking exactly voxel `(0,0,0)`. -/
def lesionEx : Volume :=
  { shape := (5, 5, 1)
    data := fun x y _ => if x = 0 ∧ y = 0 then some 1 else some 0 }

/-- Example lesion mask that exists but is entirely zero. -/
def lesionZeroEx : Volume :=
  { shape := (5, 5, 1)
    data := fun _ _ _ => some 0 }

/-- Example run without a lesion mask. -/
def exInp : Inputs :=
  ⟨segEx, qsmEx, snMaskEx, snMaskEx, mniEx, none⟩

/-- Example run with the nontrivial lesion mask. -/
def exInpL : Inputs :=
  ⟨segEx, qsmEx, snMaskEx, snMaskEx, mniEx, some lesionEx⟩

/-- Example run whose lesion mask exists but is entirely zero. -/
def exInpZ : Inputs :=
  ⟨segEx, qsmEx, snMaskEx, snMaskEx, mniEx, some lesionZeroEx⟩

/-- Example run whose native-space QSM shape disagrees with the
segmentation shape. -/
def badInp : Inputs :=
  ⟨segEx, { shape := (4, 5, 1), data := qsmEx.data }, snMaskEx, snMaskEx, mniEx, none⟩

/-- The result mapping of the lesion-free example run. -/
def exRes : List (String × Val) :=
  (extract exInp).toOption.getD []

/-- The result mapping of the run with the nontrivial lesion mask. -/
def exResL : List (String × Val) :=
  (extract exInpL).toOption.getD []

/-- The result mapping of the run with the all-zero lesion mask. -/
def exResZ : List (String × Val) :=
  (extract exInpZ).toOption.getD []

/-! Named forms of the per-region values the extractor stores; each is the
verbatim composition of the source pipeline for that region. -/

/-- The value stored for a base-catalog label: median of finite
native-space QSM values on the slice-eroded equality mask. -/
def baseRegionValue (inp : Inputs) (code : ℤ) : Val :=
  regionStat (dropNaN (maskedValues inp.qsm_data (erode2D (equals inp.seg_data code))))

/-- The value stored for an SN region: median of the strictly positive
finite MNI-space QSM values on the positive-mask region. -/
def snRegionValue (qsm_mni sn : Volume) : Val :=
  regionStat ((dropNaN (maskedValues qsm_mni (gtZeroMask sn))).filter fun q => decide (0 < q))

/-- The white-matter mask `seg == 2 ∨ seg == 41`. -/
def wmMask (inp : Inputs) : Mask :=
  maskOr (equals inp.seg_data 2) (equals inp.seg_data 41)

/-- The value stored for WMH: median of finite native-space QSM values
where the lesion mask equals 1. -/
def wmhValue (inp : Inputs) (w : Volume) : Val :=
  regionStat (dropNaN (maskedValues inp.qsm_data (eqOneMask w)))

/-- The value stored for WM. -/
def wmValue (inp : Inputs) : Val :=
  regionStat (dropNaN (maskedValues inp.qsm_data (wmMask inp)))

/-- The value stored for WM_no_lesions. -/
def wmNoLesionsValue (inp : Inputs) (w : Volume) : Val :=
  regionStat (dropNaN (maskedValues inp.qsm_data (maskAnd (wmMask inp) (eqZeroMask w))))

/-- The lesion-independent portion of the result mapping, in output order. -/
def part1 (inp : Inputs) : List (String × Val) :=
  (regions_dic.map fun p => (p.2, baseRegionValue inp p.1)) ++
  [("SN_L", snRegionValue inp.qsm_mni_data inp.sn_left_data),
   ("SN_R", snRegionValue inp.qsm_mni_data inp.sn_right_data)]

/-- The lesion-dependent portion of the result mapping, in output order. -/
def lesionPart (inp : Inputs) (w : Volume) : List (String × Val) :=
  [("WMH", wmhValue inp w), ("WM", wmValue inp),
   ("WM_no_lesions", wmNoLesionsValue inp w),
   ("Diff-WM", subVal (wmValue inp) (wmhValue inp w)),
   ("Diff-WM-no-lesions", subVal (wmNoLesionsValue inp w) (wmhValue inp w))]

lemma boolIndex_ok {v : Volume} {m : Mask} (h : v.shape = m.shape) :
    boolIndex v m = .ok (maskedValues v m) := by
  simp [boolIndex, h]

lemma boolIndex_error {v : Volume} {m : Mask} (h : v.shape ≠ m.shape) :
    boolIndex v m = .error "boolean index did not match indexed array" := by
  simp [boolIndex, h]

lemma baseRegion_ok {inp : Inputs} (h : inp.qsm_data.shape = inp.seg_data.shape)
    (code : ℤ) : baseRegion inp code = .ok (baseRegionValue inp code) := by
  have e : boolIndex inp.qsm_data (erode2D (equals inp.seg_data code)) =
      .ok (maskedValues inp.qsm_data (erode2D (equals inp.seg_data code))) :=
    boolIndex_ok h
  simp [baseRegion, e, baseRegionValue]

lemma baseRegion_error {inp : Inputs} (h : inp.qsm_data.shape ≠ inp.seg_data.shape)
    (code : ℤ) :
    baseRegion inp code = .error "boolean index did not match indexed array" := by
  have e : boolIndex inp.qsm_data (erode2D (equals inp.seg_data code)) =
      .error "boolean index did not match indexed array" := boolIndex_error h
  simp [baseRegion, e]

lemma snRegion_ok {q sn : Volume} (h : q.shape = sn.shape) :
    snRegion q sn = .ok (snRegionValue q sn) := by
  have e : boolIndex q (gtZeroMask sn) = .ok (maskedValues q (gtZeroMask sn)) :=
    boolIndex_ok h
  simp [snRegion, e, snRegionValue]

lemma snRegion_error {q sn : Volume} (h : q.shape ≠ sn.shape) :
    snRegion q sn = .error "boolean index did not match indexed array" := by
  have e : boolIndex q (gtZeroMask sn) =
      .error "boolean index did not match indexed array" := boolIndex_error h
  simp [snRegion, e]

lemma computeBase_ok {inp : Inputs} (h : inp.qsm_data.shape = inp.seg_data.shape) :
    ∀ l : List (ℤ × String),
      computeBase inp l = .ok (l.map fun p => (p.2, baseRegionValue inp p.1)) := by
  intro l
  induction l with
  | nil => rfl
  | cons p rest ih =>
    obtain ⟨c, n⟩ := p
    simp [computeBase, baseRegion_ok h, ih]

lemma computeBase_cons_error {inp : Inputs} {c : ℤ} {n : String}
    {rest : List (ℤ × String)} {e : String} (h : baseRegion inp c = .error e) :
    computeBase inp ((c, n) :: rest) = .error e := by
  simp [computeBase, h]

lemma extract_ok_none {inp : Inputs}
    (h1 : inp.qsm_data.shape = inp.seg_data.shape)
    (h2 : inp.qsm_mni_data.shape = inp.sn_left_data.shape)
    (h3 : inp.qsm_mni_data.shape = inp.sn_right_data.shape)
    (hl : inp.lesions_mask = none) :
    extract inp = .ok (part1 inp) := by
  simp [extract, computeBase_ok h1, snRegion_ok h2, snRegion_ok h3, hl, part1]

lemma extract_ok_some {inp : Inputs} {w : Volume}
    (h1 : inp.qsm_data.shape = inp.seg_data.shape)
    (h2 : inp.qsm_mni_data.shape = inp.sn_left_data.shape)
    (h3 : inp.qsm_mni_data.shape = inp.sn_right_data.shape)
    (h4 : inp.qsm_data.shape = w.shape)
    (hl : inp.lesions_mask = some w) :
    extract inp = .ok (part1 inp ++ lesionPart inp w) := by
  have e1 : boolIndex inp.qsm_data (eqOneMask w) =
      .ok (maskedValues inp.qsm_data (eqOneMask w)) := boolIndex_ok h4
  have e2 : boolIndex inp.qsm_data
      (maskOr (equals inp.seg_data 2) (equals inp.seg_data 41)) =
      .ok (maskedValues inp.qsm_data
        (maskOr (equals inp.seg_data 2) (equals inp.seg_data 41))) := boolIndex_ok h1
  have e3 : boolIndex inp.qsm_data
      (maskAnd (maskOr (equals inp.seg_data 2) (equals inp.seg_data 41)) (eqZeroMask w)) =
      .ok (maskedValues inp.qsm_data
        (maskAnd (maskOr (equals inp.seg_data 2) (equals inp.seg_data 41))
          (eqZeroMask w))) := boolIndex_ok h1
  simp [extract, computeBase_ok h1, snRegion_ok h2, snRegion_ok h3, hl,
        e1, e2, e3, part1, lesionPart, wmhValue, wmValue, wmNoLesionsValue, wmMask]

lemma extract_ok_shapes {inp : Inputs} {res : List (String × Val)}
    (hok : extract inp = .ok res) :
    inp.qsm_data.shape = inp.seg_data.shape ∧
    inp.qsm_mni_data.shape = inp.sn_left_data.shape ∧
    inp.qsm_mni_data.shape = inp.sn_right_data.shape ∧
    ∀ w, inp.lesions_mask = some w → inp.qsm_data.shape = w.shape := by
  rw [extract] at hok
  cases hb : computeBase inp regions_dic with
  | error e => rw [hb] at hok; cases hok
  | ok base =>
  rw [hb] at hok
  have h1 : inp.qsm_data.shape = inp.seg_data.shape := by
    by_contra h
    have hc : computeBase inp regions_dic =
        .error "boolean index did not match indexed array" :=
      computeBase_cons_error (baseRegion_error h 10)
    rw [hc] at hb; cases hb
  cases hsl : snRegion inp.qsm_mni_data inp.sn_left_data with
  | error e => rw [hsl] at hok; cases hok
  | ok vL =>
  rw [hsl] at hok
  have h2 : inp.qsm_mni_data.shape = inp.sn_left_data.shape := by
    by_contra h
    rw [snRegion_error h] at hsl; cases hsl
  cases hsr : snRegion inp.qsm_mni_data inp.sn_right_data with
  | error e => rw [hsr] at hok; cases hok
  | ok vR =>
  rw [hsr] at hok
  have h3 : inp.qsm_mni_data.shape = inp.sn_right_data.shape := by
    by_contra h
    rw [snRegion_error h] at hsr; cases hsr
  refine ⟨h1, h2, h3, ?_⟩
  intro w hw
  rw [hw] at hok
  by_contra h
  have e : boolIndex inp.qsm_data (eqOneMask w) =
      .error "boolean index did not match indexed array" := boolIndex_error h
  simp [e] at hok

lemma lookup_append_left {α β : Type} [BEq α] {l₁ l₂ : List (α × β)} {a : α} {v : β}
    (h : l₁.lookup a = some v) : (l₁ ++ l₂).lookup a = some v := by
  induction l₁ with
  | nil => simp [List.lookup] at h
  | cons p rest ih =>
    obtain ⟨k, b⟩ := p
    rw [List.cons_append]
    rw [List.lookup] at h ⊢
    cases hk : a == k with
    | true => rw [hk] at h; simpa [hk] using h
    | false => rw [hk] at h; simpa [hk] using ih h

lemma lookup_append_right {α β : Type} [BEq α] [LawfulBEq α]
    {l₁ l₂ : List (α × β)} {a : α} (h : a ∉ l₁.map Prod.fst) :
    (l₁ ++ l₂).lookup a = l₂.lookup a := by
  induction l₁ with
  | nil => simp
  | cons p rest ih =>
    obtain ⟨k, b⟩ := p
    simp only [List.map_cons, List.mem_cons] at h
    push_neg at h
    rw [List.cons_append, List.lookup]
    have hk : (a == k) = false := beq_false_of_ne h.1
    rw [hk]
    exact ih h.2

lemma lookup_eq_none_of_not_mem {α β : Type} [BEq α] [LawfulBEq α]
    {l : List (α × β)} {a : α} (h : a ∉ l.map Prod.fst) :
    l.lookup a = none := by
  induction l with
  | nil => rfl
  | cons p rest ih =>
    obtain ⟨k, b⟩ := p
    simp only [List.map_cons, List.mem_cons] at h
    push_neg at h
    rw [List.lookup]
    have hk : (a == k) = false := beq_false_of_ne h.1
    rw [hk]
    exact ih h.2

lemma lookup_map_catalog {f : ℤ → Val} {l : List (ℤ × String)} {code : ℤ} {name : String}
    (hnd : (l.map Prod.snd).Nodup) (hmem : (code, name) ∈ l) :
    (l.map fun p => (p.2, f p.1)).lookup name = some (f code) := by
  induction l with
  | nil => cases hmem
  | cons p rest ih =>
    obtain ⟨c, n⟩ := p
    simp only [List.map_cons, List.nodup_cons] at hnd
    rcases List.mem_cons.mp hmem with heq | hmem'
    · obtain ⟨hc, hn⟩ := Prod.mk.inj heq
      subst hc; subst hn
      simp [List.lookup]
    · have hne : name ≠ n := by
        intro hEq
        subst hEq
        exact hnd.1 (List.mem_map.mpr ⟨(code, name), hmem', rfl⟩)
      rw [List.map_cons, List.lookup]
      have hk : (name == n) = false := beq_false_of_ne hne
      rw [hk]
      exact ih hnd.2 hmem'

lemma regions_dic_names_nodup : (regions_dic.map Prod.snd).Nodup := by decide

lemma part1_keys (inp : Inputs) :
    (part1 inp).map Prod.fst = regions_dic.map Prod.snd ++ ["SN_L", "SN_R"] := by
  simp [part1]

lemma lesionPart_keys (inp : Inputs) (w : Volume) :
    (lesionPart inp w).map Prod.fst =
      ["WMH", "WM", "WM_no_lesions", "Diff-WM", "Diff-WM-no-lesions"] := by
  simp [lesionPart]

lemma maskedValues_congr {v : Volume} {m₁ m₂ : Mask}
    (h : ∀ x y z, m₁.data x y z = m₂.data x y z) :
    maskedValues v m₁ = maskedValues v m₂ := by
  unfold maskedValues
  congr 1
  funext c
  rw [h]

lemma regionStat_median_char (l : List ℚ) (h : l ≠ []) :
    ∃ s : List ℚ, l.Perm s ∧ s.Sorted (fun a b => a ≤ b) ∧
      regionStat l = some (if s.length % 2 = 1 then s.getD (s.length / 2) 0
        else (s.getD (s.length / 2 - 1) 0 + s.getD (s.length / 2) 0) / 2) := by
  refine ⟨List.insertionSort (fun a b => a ≤ b) l,
    (List.perm_insertionSort _ l).symm, List.sorted_insertionSort _ l, ?_⟩
  have hpos : l.length > 0 := List.length_pos.mpr h
  simp [regionStat, npMedian, hpos]

lemma extract_ok_char {inp : Inputs} {res : List (String × Val)}
    (hok : extract inp = .ok res) :
    (inp.lesions_mask = none ∧ res = part1 inp) ∨
    (∃ w, inp.lesions_mask = some w ∧ res = part1 inp ++ lesionPart inp w) := by
  obtain ⟨h1, h2, h3, h4⟩ := extract_ok_shapes hok
  cases hl : inp.lesions_mask with
  | none =>
    left
    refine ⟨rfl, ?_⟩
    have := extract_ok_none h1 h2 h3 hl
    rw [this] at hok
    exact (Except.ok.inj hok).symm
  | some w =>
    right
    refine ⟨w, rfl, ?_⟩
    have := extract_ok_some h1 h2 h3 (h4 w hl) hl
    rw [this] at hok
    exact (Except.ok.inj hok).symm

lemma extract_ok_keys {inp : Inputs} {res : List (String × Val)}
    (hok : extract inp = .ok res) :
    res.map Prod.fst = regions_dic.map Prod.snd ++ ["SN_L", "SN_R"] ++
      (match inp.lesions_mask with
       | some _ => ["WMH", "WM", "WM_no_lesions", "Diff-WM", "Diff-WM-no-lesions"]
       | none => ([] : List String)) := by
  rcases extract_ok_char hok with ⟨hl, hres⟩ | ⟨w, hl, hres⟩
  · subst hres
    rw [hl]
    simpa using part1_keys inp
  · subst hres
    rw [hl]
    simp [part1, lesionPart]

/-- Lookup of a base-catalog region name in the full result mapping. -/
lemma extract_ok_lookup_base {inp : Inputs} {res : List (String × Val)}
    {code : ℤ} {name : String}
    (hok : extract inp = .ok res) (hmem : (code, name) ∈ regions_dic) :
    res.lookup name = some (baseRegionValue inp code) := by
  have hbase : (regions_dic.map fun p => (p.2, baseRegionValue inp p.1)).lookup name =
      some (baseRegionValue inp code) :=
    lookup_map_catalog regions_dic_names_nodup hmem
  rcases extract_ok_char hok with ⟨_, hres⟩ | ⟨w, _, hres⟩
  · subst hres
    exact lookup_append_left hbase
  · subst hres
    rw [part1, List.append_assoc]
    exact lookup_append_left hbase

/-- Lookup of a key that is absent from the base catalog and the SN pair:
the lookup continues in the lesion-dependent part. -/
lemma extract_lookup_skip_part1 {inp : Inputs} {rest : List (String × Val)} {k : String}
    (hk : k ∉ (part1 inp).map Prod.fst) :
    (part1 inp ++ rest).lookup k = rest.lookup k :=
  lookup_append_right hk

lemma filterMap_none {α β : Type} :
    ∀ l : List α, l.filterMap (fun _ => (none : Option β)) = []
  | [] => rfl
  | a :: t => by simp [List.filterMap_cons, filterMap_none t]

lemma maskedValues_false {v : Volume} {m : Mask}
    (h : ∀ x y z, m.data x y z = false) : maskedValues v m = [] := by
  unfold maskedValues
  simp only [h, if_neg (by exact fun hc => Bool.false_ne_true hc)]
  exact filterMap_none _

/-- Claim C1: for every base-catalog label code, the result stored under
that region's name equals the median of the finite native-space QSM values
sampled at exactly the voxels surviving the single-iteration, slice-wise
4-connected binary erosion (zero-padded at slice edges, applied per index
along the third axis) of the label-equality mask.  The second conjunct
characterises the surviving voxels of `erode2D` pointwise. -/
theorem C1_base_region_eroded_median (inp : Inputs) (res : List (String × Val))
    (code : ℤ) (name : String)
    (hok : extract inp = .ok res) (hmem : (code, name) ∈ regions_dic) :
    res.lookup name =
      some (regionStat (dropNaN (maskedValues inp.qsm_data
        (erode2D (equals inp.seg_data code))))) ∧
    ∀ (m : Mask) (x y z : ℕ),
      ((erode2D m).data x y z = true ↔
        (m.data x y z = true ∧ 0 < x ∧ x + 1 < m.shape.1 ∧ 0 < y ∧ y + 1 < m.shape.2.1 ∧
         m.data (x - 1) y z = true ∧ m.data (x + 1) y z = true ∧
         m.data x (y - 1) z = true ∧ m.data x (y + 1) z = true)) := by
  constructor
  · exact extract_ok_lookup_base hok hmem
  · intro m x y z
    simp only [erode2D, Bool.and_eq_true, decide_eq_true_eq]
    tauto

/-- Witness for C1 at the concrete lesion-free example run. -/
theorem C1_witness :
    extract exInp = .ok exRes ∧ (10, "Left-Thalamus-Proper") ∈ regions_dic ∧
    exRes.lookup "Left-Thalamus-Proper" =
      some (regionStat (dropNaN (maskedValues exInp.qsm_data
        (erode2D (equals exInp.seg_data 10))))) :=
  ⟨rfl, by decide,
   (C1_base_region_eroded_median exInp exRes 10 "Left-Thalamus-Proper" rfl (by decide)).1⟩

/-- Claim C2: the WMH value is the median (not the mean) of the finite
native-space QSM values at voxels where the lesion mask equals 1; the
second conjunct pins `regionStat` of a nonempty list to the sorted-middle
median of the gathered values. -/
theorem C2_wmh_median (inp : Inputs) (res : List (String × Val)) (w : Volume)
    (hok : extract inp = .ok res) (hl : inp.lesions_mask = some w) :
    res.lookup "WMH" =
      some (regionStat (dropNaN (maskedValues inp.qsm_data (eqOneMask w)))) ∧
    ∀ l : List ℚ, l ≠ [] →
      ∃ s : List ℚ, l.Perm s ∧ s.Sorted (fun a b => a ≤ b) ∧
        regionStat l = some (if s.length % 2 = 1 then s.getD (s.length / 2) 0
          else (s.getD (s.length / 2 - 1) 0 + s.getD (s.length / 2) 0) / 2) := by
  refine ⟨?_, regionStat_median_char⟩
  rcases extract_ok_char hok with ⟨hl', _⟩ | ⟨w', hl', hres⟩
  · rw [hl] at hl'; cases hl'
  · rw [hl] at hl'
    obtain rfl : w = w' := Option.some.inj hl'
    subst hres
    rw [extract_lookup_skip_part1 (by rw [part1_keys]; decide)]
    simp [lesionPart, List.lookup, wmhValue]

/-- Witness for C2 at the concrete run with the nontrivial lesion mask. -/
theorem C2_witness :
    extract exInpL = .ok exResL ∧ exInpL.lesions_mask = some lesionEx ∧
    exResL.lookup "WMH" =
      some (regionStat (dropNaN (maskedValues exInpL.qsm_data (eqOneMask lesionEx)))) :=
  ⟨rfl, rfl, (C2_wmh_median exInpL exResL lesionEx rfl rfl).1⟩

/-- Claim C3: when no lesion mask is supplied (or the path is not a file),
extraction succeeds, the result's keys are exactly the base catalog
followed by SN_L and SN_R, and each of the five lesion-dependent keys is
entirely absent (no key, and lookup is `none`, not a stored NaN). -/
theorem C3_missing_lesion_omits_keys (inp : Inputs)
    (hl : inp.lesions_mask = none)
    (h1 : inp.qsm_data.shape = inp.seg_data.shape)
    (h2 : inp.qsm_mni_data.shape = inp.sn_left_data.shape)
    (h3 : inp.qsm_mni_data.shape = inp.sn_right_data.shape) :
    ∃ res, extract inp = .ok res ∧
      res.map Prod.fst = regions_dic.map Prod.snd ++ ["SN_L", "SN_R"] ∧
      ∀ k ∈ (["WMH", "WM", "WM_no_lesions", "Diff-WM", "Diff-WM-no-lesions"] :
          List String),
        k ∉ res.map Prod.fst ∧ res.lookup k = none := by
  refine ⟨part1 inp, extract_ok_none h1 h2 h3 hl, part1_keys inp, ?_⟩
  intro k hk
  have hnk : k ∉ (part1 inp).map Prod.fst := by
    rw [part1_keys]
    simp only [List.mem_cons, List.not_mem_nil, or_false] at hk
    rcases hk with rfl | rfl | rfl | rfl | rfl <;> decide
  exact ⟨hnk, lookup_eq_none_of_not_mem hnk⟩

/-- Witness for C3 at the concrete lesion-free example run. -/
theorem C3_witness :
    exInp.lesions_mask = none ∧
    exInp.qsm_data.shape = exInp.seg_data.shape ∧
    exInp.qsm_mni_data.shape = exInp.sn_left_data.shape ∧
    exInp.qsm_mni_data.shape = exInp.sn_right_data.shape ∧
    ∃ res, extract exInp = .ok res ∧
      res.map Prod.fst = regions_dic.map Prod.snd ++ ["SN_L", "SN_R"] ∧
      ∀ k ∈ (["WMH", "WM", "WM_no_lesions", "Diff-WM", "Diff-WM-no-lesions"] :
          List String),
        k ∉ res.map Prod.fst ∧ res.lookup k = none :=
  ⟨rfl, rfl, rfl, rfl, C3_missing_lesion_omits_keys exInp rfl rfl rfl rfl⟩

lemma mapped_base_keys (inp : Inputs) :
    ((regions_dic.map fun p => (p.2, baseRegionValue inp p.1)).map Prod.fst) =
      regions_dic.map Prod.snd := by
  simp

lemma part1_lookup_snl (inp : Inputs) :
    (part1 inp).lookup "SN_L" =
      some (snRegionValue inp.qsm_mni_data inp.sn_left_data) := by
  rw [part1, lookup_append_right (by rw [mapped_base_keys]; decide)]
  rfl

lemma part1_lookup_snr (inp : Inputs) :
    (part1 inp).lookup "SN_R" =
      some (snRegionValue inp.qsm_mni_data inp.sn_right_data) := by
  rw [part1, lookup_append_right (by rw [mapped_base_keys]; decide)]
  rfl

lemma extract_ok_lookup_snl {inp : Inputs} {res : List (String × Val)}
    (hok : extract inp = .ok res) :
    res.lookup "SN_L" = some (snRegionValue inp.qsm_mni_data inp.sn_left_data) := by
  rcases extract_ok_char hok with ⟨_, hres⟩ | ⟨w, _, hres⟩ <;> subst hres
  · exact part1_lookup_snl inp
  · exact lookup_append_left (part1_lookup_snl inp)

lemma extract_ok_lookup_snr {inp : Inputs} {res : List (String × Val)}
    (hok : extract inp = .ok res) :
    res.lookup "SN_R" = some (snRegionValue inp.qsm_mni_data inp.sn_right_data) := by
  rcases extract_ok_char hok with ⟨_, hres⟩ | ⟨w, _, hres⟩ <;> subst hres
  · exact part1_lookup_snr inp
  · exact lookup_append_left (part1_lookup_snr inp)

/-- Counterexample to claim C4: a run whose supplied lesion mask exists
but is entirely zero, yet the key WMH IS present in the result mapping
(stored with value NaN), contradicting the claimed absence. -/
theorem C4_counterexample :
    exInpZ.lesions_mask = some lesionZeroEx ∧
    lesionZeroEx.data = (fun _ _ _ => some 0) ∧
    extract exInpZ = .ok exResZ ∧
    "WMH" ∈ exResZ.map Prod.fst ∧
    exResZ.lookup "WMH" = some none :=
  ⟨rfl, rfl, rfl, by decide, by decide⟩

/-- Claim C4 as amended: when the supplied lesion mask exists but is
entirely zero, the key WMH is PRESENT in the result mapping with stored
value NaN (not absent), and the WM and WM_no_lesions results are equal. -/
theorem C4_all_zero_lesion (inp : Inputs) (res : List (String × Val)) (w : Volume)
    (hok : extract inp = .ok res) (hl : inp.lesions_mask = some w)
    (hzero : ∀ x y z, w.data x y z = some 0) :
    "WMH" ∈ res.map Prod.fst ∧
    res.lookup "WMH" = some none ∧
    res.lookup "WM" = res.lookup "WM_no_lesions" := by
  rcases extract_ok_char hok with ⟨hl', _⟩ | ⟨w', hl', hres⟩
  · rw [hl] at hl'; cases hl'
  · rw [hl] at hl'
    obtain rfl : w = w' := Option.some.inj hl'
    subst hres
    have hWMHkey : ("WMH" : String) ∉ (part1 inp).map Prod.fst := by
      rw [part1_keys]; decide
    have hWMkey : ("WM" : String) ∉ (part1 inp).map Prod.fst := by
      rw [part1_keys]; decide
    have hWMNLkey : ("WM_no_lesions" : String) ∉ (part1 inp).map Prod.fst := by
      rw [part1_keys]; decide
    have hWMHempty : maskedValues inp.qsm_data (eqOneMask w) = [] := by
      refine maskedValues_false ?_
      intro x y z
      simp [eqOneMask, hzero]
    have hsame : maskedValues inp.qsm_data (maskAnd (wmMask inp) (eqZeroMask w)) =
        maskedValues inp.qsm_data (wmMask inp) := by
      refine maskedValues_congr ?_
      intro x y z
      simp [maskAnd, eqZeroMask, hzero]
    refine ⟨?_, ?_, ?_⟩
    · rw [List.map_append, lesionPart_keys]
      simp
    · rw [extract_lookup_skip_part1 hWMHkey]
      simp [lesionPart, List.lookup, wmhValue, hWMHempty, dropNaN, regionStat]
    · rw [extract_lookup_skip_part1 hWMkey, extract_lookup_skip_part1 hWMNLkey]
      have hval : wmNoLesionsValue inp w = wmValue inp := by
        rw [wmNoLesionsValue, hsame, wmValue]
      simp [lesionPart, List.lookup, hval]

/-- Witness for the amended C4 at the concrete all-zero-lesion run. -/
theorem C4_witness :
    extract exInpZ = .ok exResZ ∧ exInpZ.lesions_mask = some lesionZeroEx ∧
    (∀ x y z, lesionZeroEx.data x y z = some 0) ∧
    ("WMH" ∈ exResZ.map Prod.fst ∧
     exResZ.lookup "WMH" = some none ∧
     exResZ.lookup "WM" = exResZ.lookup "WM_no_lesions") :=
  ⟨rfl, rfl, fun _ _ _ => rfl,
   C4_all_zero_lesion exInpZ exResZ lesionZeroEx rfl rfl (fun _ _ _ => rfl)⟩

/-- Claim C5: whenever the lesion-dependent regions are computed, the
derived metrics are exactly the subtraction of the already-stored region
scalars (Diff-WM = WM - WMH, Diff-WM-no-lesions = WM_no_lesions - WMH),
and subtraction propagates NaN from either operand. -/
theorem C5_derived_differences (inp : Inputs) (res : List (String × Val)) (w : Volume)
    (hok : extract inp = .ok res) (hl : inp.lesions_mask = some w) :
    (∃ wm wmh wmnl : Val,
      res.lookup "WM" = some wm ∧ res.lookup "WMH" = some wmh ∧
      res.lookup "WM_no_lesions" = some wmnl ∧
      res.lookup "Diff-WM" = some (subVal wm wmh) ∧
      res.lookup "Diff-WM-no-lesions" = some (subVal wmnl wmh)) ∧
    ∀ a b : Val, a = none ∨ b = none → subVal a b = none := by
  constructor
  · rcases extract_ok_char hok with ⟨hl', _⟩ | ⟨w', hl', hres⟩
    · rw [hl] at hl'; cases hl'
    · rw [hl] at hl'
      obtain rfl : w = w' := Option.some.inj hl'
      subst hres
      refine ⟨wmValue inp, wmhValue inp w, wmNoLesionsValue inp w, ?_, ?_, ?_, ?_, ?_⟩ <;>
        · rw [extract_lookup_skip_part1 (by rw [part1_keys]; decide)]
          simp [lesionPart, List.lookup]
  · intro a b h
    rcases h with rfl | rfl
    · cases b <;> rfl
    · cases a <;> rfl

/-- Witness for C5 at the concrete run with the nontrivial lesion mask. -/
theorem C5_witness :
    extract exInpL = .ok exResL ∧ exInpL.lesions_mask = some lesionEx ∧
    ((∃ wm wmh wmnl : Val,
      exResL.lookup "WM" = some wm ∧ exResL.lookup "WMH" = some wmh ∧
      exResL.lookup "WM_no_lesions" = some wmnl ∧
      exResL.lookup "Diff-WM" = some (subVal wm wmh) ∧
      exResL.lookup "Diff-WM-no-lesions" = some (subVal wmnl wmh)) ∧
    ∀ a b : Val, a = none ∨ b = none → subVal a b = none) :=
  ⟨rfl, rfl, C5_derived_differences exInpL exResL lesionEx rfl rfl⟩

/-- Claim C6: every region whose selection yields zero finite voxels --
any base-catalog region, SN_L, SN_R, or (when computed) WMH, WM,
WM_no_lesions -- stores NaN as its statistic; no exception is raised
(extraction returns ok) and the full key list is still produced, so all
other regions are computed. -/
theorem C6_empty_mask_nan (inp : Inputs)
    (h1 : inp.qsm_data.shape = inp.seg_data.shape)
    (h2 : inp.qsm_mni_data.shape = inp.sn_left_data.shape)
    (h3 : inp.qsm_mni_data.shape = inp.sn_right_data.shape)
    (h4 : ∀ w, inp.lesions_mask = some w → inp.qsm_data.shape = w.shape) :
    ∃ res, extract inp = .ok res ∧
      res.map Prod.fst = regions_dic.map Prod.snd ++ ["SN_L", "SN_R"] ++
        (match inp.lesions_mask with
         | some _ => ["WMH", "WM", "WM_no_lesions", "Diff-WM", "Diff-WM-no-lesions"]
         | none => ([] : List String)) ∧
      (∀ code name, (code, name) ∈ regions_dic →
        dropNaN (maskedValues inp.qsm_data (erode2D (equals inp.seg_data code))) = [] →
        res.lookup name = some none) ∧
      ((dropNaN (maskedValues inp.qsm_mni_data (gtZeroMask inp.sn_left_data))).filter
          (fun r => decide (0 < r)) = [] →
        res.lookup "SN_L" = some none) ∧
      ((dropNaN (maskedValues inp.qsm_mni_data (gtZeroMask inp.sn_right_data))).filter
          (fun r => decide (0 < r)) = [] →
        res.lookup "SN_R" = some none) ∧
      ∀ w, inp.lesions_mask = some w →
        (dropNaN (maskedValues inp.qsm_data (eqOneMask w)) = [] →
          res.lookup "WMH" = some none) ∧
        (dropNaN (maskedValues inp.qsm_data (wmMask inp)) = [] →
          res.lookup "WM" = some none) ∧
        (dropNaN (maskedValues inp.qsm_data (maskAnd (wmMask inp) (eqZeroMask w))) = [] →
          res.lookup "WM_no_lesions" = some none) := by
  have hex : ∃ r, extract inp = .ok r := by
    cases hlm : inp.lesions_mask with
    | none => exact ⟨_, extract_ok_none h1 h2 h3 hlm⟩
    | some w => exact ⟨_, extract_ok_some h1 h2 h3 (h4 w hlm) hlm⟩
  obtain ⟨res, hok⟩ := hex
  refine ⟨res, hok, extract_ok_keys hok, ?_, ?_, ?_, ?_⟩
  · intro code name hmem hempty
    have hlu := extract_ok_lookup_base hok hmem
    rw [baseRegionValue, hempty] at hlu
    simpa [regionStat] using hlu
  · intro hempty
    have hlu := extract_ok_lookup_snl hok
    rw [snRegionValue, hempty] at hlu
    simpa [regionStat] using hlu
  · intro hempty
    have hlu := extract_ok_lookup_snr hok
    rw [snRegionValue, hempty] at hlu
    simpa [regionStat] using hlu
  · intro w hl
    rcases extract_ok_char hok with ⟨hl', _⟩ | ⟨w', hl', hres⟩
    · rw [hl] at hl'; cases hl'
    · rw [hl] at hl'
      obtain rfl : w = w' := Option.some.inj hl'
      subst hres
      refine ⟨?_, ?_, ?_⟩
      · intro hempty
        rw [extract_lookup_skip_part1 (by rw [part1_keys]; decide)]
        simp [lesionPart, List.lookup, wmhValue, hempty, regionStat]
      · intro hempty
        rw [extract_lookup_skip_part1 (by rw [part1_keys]; decide)]
        simp [lesionPart, List.lookup, wmValue, hempty, regionStat]
      · intro hempty
        rw [extract_lookup_skip_part1 (by rw [part1_keys]; decide)]
        simp [lesionPart, List.lookup, wmNoLesionsValue, hempty, regionStat]

/-- Witness for C6 at the concrete lesion-free example run (label 11 is
absent from the example segmentation, so its eroded mask selects zero
finite voxels there). -/
theorem C6_witness :
    exInp.qsm_data.shape = exInp.seg_data.shape ∧
    exInp.qsm_mni_data.shape = exInp.sn_left_data.shape ∧
    exInp.qsm_mni_data.shape = exInp.sn_right_data.shape ∧
    (∀ w, exInp.lesions_mask = some w → exInp.qsm_data.shape = w.shape) ∧
    ∃ res, extract exInp = .ok res ∧
      res.map Prod.fst = regions_dic.map Prod.snd ++ ["SN_L", "SN_R"] ++
        (match exInp.lesions_mask with
         | some _ => ["WMH", "WM", "WM_no_lesions", "Diff-WM", "Diff-WM-no-lesions"]
         | none => ([] : List String)) ∧
      (∀ code name, (code, name) ∈ regions_dic →
        dropNaN (maskedValues exInp.qsm_data (erode2D (equals exInp.seg_data code))) = [] →
        res.lookup name = some none) ∧
      ((dropNaN (maskedValues exInp.qsm_mni_data (gtZeroMask exInp.sn_left_data))).filter
          (fun r => decide (0 < r)) = [] →
        res.lookup "SN_L" = some none) ∧
      ((dropNaN (maskedValues exInp.qsm_mni_data (gtZeroMask exInp.sn_right_data))).filter
          (fun r => decide (0 < r)) = [] →
        res.lookup "SN_R" = some none) ∧
      ∀ w, exInp.lesions_mask = some w →
        (dropNaN (maskedValues exInp.qsm_data (eqOneMask w)) = [] →
          res.lookup "WMH" = some none) ∧
        (dropNaN (maskedValues exInp.qsm_data (wmMask exInp)) = [] →
          res.lookup "WM" = some none) ∧
        (dropNaN (maskedValues exInp.qsm_data (maskAnd (wmMask exInp) (eqZeroMask w))) = [] →
          res.lookup "WM_no_lesions" = some none) := by
  have hno : ∀ w, exInp.lesions_mask = some w → exInp.qsm_data.shape = w.shape := by
    intro w h
    simp [exInp] at h
  exact ⟨rfl, rfl, rfl, hno, C6_empty_mask_nan exInp rfl rfl rfl hno⟩

/-- Claim C7: the SN_L and SN_R results are the medians of the
template-space QSM values at positive-mask voxels after the
strictly-positive sign filter; the final conjunct shows the filter keeps
exactly the strictly positive finite values — exactly-zero values are
excluded. -/
theorem C7_sn_strictly_positive (inp : Inputs) (res : List (String × Val))
    (hok : extract inp = .ok res) :
    res.lookup "SN_L" = some (snRegionValue inp.qsm_mni_data inp.sn_left_data) ∧
    res.lookup "SN_R" = some (snRegionValue inp.qsm_mni_data inp.sn_right_data) ∧
    ∀ (v sn : Volume) (q : ℚ),
      (q ∈ (dropNaN (maskedValues v (gtZeroMask sn))).filter (fun r => decide (0 < r)) ↔
        q ∈ dropNaN (maskedValues v (gtZeroMask sn)) ∧ 0 < q) := by
  refine ⟨extract_ok_lookup_snl hok, extract_ok_lookup_snr hok, ?_⟩
  intro v sn q
  simp [List.mem_filter]

/-- Witness for C7 at the concrete lesion-free example run. -/
theorem C7_witness :
    extract exInp = .ok exRes ∧
    exRes.lookup "SN_L" = some (snRegionValue exInp.qsm_mni_data exInp.sn_left_data) ∧
    exRes.lookup "SN_R" = some (snRegionValue exInp.qsm_mni_data exInp.sn_right_data) ∧
    ∀ (v sn : Volume) (q : ℚ),
      (q ∈ (dropNaN (maskedValues v (gtZeroMask sn))).filter (fun r => decide (0 < r)) ↔
        q ∈ dropNaN (maskedValues v (gtZeroMask sn)) ∧ 0 < q) :=
  ⟨rfl, C7_sn_strictly_positive exInp exRes rfl⟩

/-- Claim C8: whenever a scalar volume must be sampled against a mask of a
different shape (base loop, either SN region, or the lesion block), the
whole extraction fails with an error — no partial result is produced. -/
theorem C8_shape_mismatch_fatal (inp : Inputs)
    (h : inp.qsm_data.shape ≠ inp.seg_data.shape ∨
         inp.qsm_mni_data.shape ≠ inp.sn_left_data.shape ∨
         inp.qsm_mni_data.shape ≠ inp.sn_right_data.shape ∨
         ∃ w, inp.lesions_mask = some w ∧ inp.qsm_data.shape ≠ w.shape) :
    ∃ e, extract inp = .error e := by
  cases he : extract inp with
  | error e => exact ⟨e, rfl⟩
  | ok res =>
    obtain ⟨s1, s2, s3, s4⟩ := extract_ok_shapes he
    rcases h with h | h | h | ⟨w, hw, hne⟩
    · exact absurd s1 h
    · exact absurd s2 h
    · exact absurd s3 h
    · exact absurd (s4 w hw) hne

/-- Witness for C8 at the mismatched-shape example run. -/
theorem C8_witness :
    (badInp.qsm_data.shape ≠ badInp.seg_data.shape ∨
     badInp.qsm_mni_data.shape ≠ badInp.sn_left_data.shape ∨
     badInp.qsm_mni_data.shape ≠ badInp.sn_right_data.shape ∨
     ∃ w, badInp.lesions_mask = some w ∧ badInp.qsm_data.shape ≠ w.shape) ∧
    ∃ e, extract badInp = .error e :=
  ⟨Or.inl (by decide), C8_shape_mismatch_fatal badInp (Or.inl (by decide))⟩

/-- Claim C9: on a first-ever write (file does not exist) the CSV block
writes exactly one header row `subject, session, <region names>` followed
by one data row; on any existing file it appends exactly one data row
with no header and no validation of the existing rows; the column order
is subject, session, the 14 base regions, SN_L, SN_R, then (when
computed) the five lesion-dependent columns last. -/
theorem C9_csv_append (subject ses : ℤ) (inp : Inputs)
    (res : List (String × Val)) (rows : List (List String))
    (hok : extract inp = .ok res) :
    appendOutput none subject ses res =
      [["subject", "session"] ++ res.map Prod.fst,
       [toString subject, toString ses] ++ res.map fun p => valToString p.2] ∧
    appendOutput (some rows) subject ses res =
      rows ++ [[toString subject, toString ses] ++ res.map fun p => valToString p.2] ∧
    res.map Prod.fst = regions_dic.map Prod.snd ++ ["SN_L", "SN_R"] ++
      (match inp.lesions_mask with
       | some _ => ["WMH", "WM", "WM_no_lesions", "Diff-WM", "Diff-WM-no-lesions"]
       | none => ([] : List String)) :=
  ⟨rfl, rfl, extract_ok_keys hok⟩

/-- Witness for C9 at the concrete lesion-free example run. -/
theorem C9_witness :
    extract exInp = .ok exRes ∧
    (appendOutput none 7 2 exRes =
      [["subject", "session"] ++ exRes.map Prod.fst,
       [toString (7 : ℤ), toString (2 : ℤ)] ++ exRes.map fun p => valToString p.2] ∧
    appendOutput (some [["previous"]]) 7 2 exRes =
      [["previous"]] ++ [[toString (7 : ℤ), toString (2 : ℤ)] ++
        exRes.map fun p => valToString p.2] ∧
    exRes.map Prod.fst = regions_dic.map Prod.snd ++ ["SN_L", "SN_R"] ++
      (match exInp.lesions_mask with
       | some _ => ["WMH", "WM", "WM_no_lesions", "Diff-WM", "Diff-WM-no-lesions"]
       | none => ([] : List String))) :=
  ⟨rfl, C9_csv_append 7 2 exInp exRes [["previous"]] rfl⟩

/-- Claim C10: the result keys are always the 14 base-catalog names in
fixed order, then SN_L and SN_R, and the five lesion-dependent keys appear
either all together, in order, at the end, or not at all. -/
theorem C10_result_key_invariant (inp : Inputs) (res : List (String × Val))
    (hok : extract inp = .ok res) :
    res.map Prod.fst = regions_dic.map Prod.snd ++ ["SN_L", "SN_R"] ++
      (match inp.lesions_mask with
       | some _ => ["WMH", "WM", "WM_no_lesions", "Diff-WM", "Diff-WM-no-lesions"]
       | none => ([] : List String)) ∧
    ((∀ k ∈ (["WMH", "WM", "WM_no_lesions", "Diff-WM", "Diff-WM-no-lesions"] :
        List String), k ∈ res.map Prod.fst) ∨
     (∀ k ∈ (["WMH", "WM", "WM_no_lesions", "Diff-WM", "Diff-WM-no-lesions"] :
        List String), k ∉ res.map Prod.fst)) := by
  have hkeys := extract_ok_keys hok
  refine ⟨hkeys, ?_⟩
  cases hl : inp.lesions_mask with
  | none =>
    right
    intro k hk
    rw [hkeys, hl]
    simp only [List.mem_cons, List.not_mem_nil, or_false] at hk
    rcases hk with rfl | rfl | rfl | rfl | rfl <;> decide
  | some w =>
    left
    intro k hk
    rw [hkeys, hl]
    simp only [List.mem_cons, List.not_mem_nil, or_false] at hk
    rcases hk with rfl | rfl | rfl | rfl | rfl <;> simp

/-- Witness for C10 at the concrete run with the nontrivial lesion mask. -/
theorem C10_witness :
    extract exInpL = .ok exResL ∧
    (exResL.map Prod.fst = regions_dic.map Prod.snd ++ ["SN_L", "SN_R"] ++
      (match exInpL.lesions_mask with
       | some _ => ["WMH", "WM", "WM_no_lesions", "Diff-WM", "Diff-WM-no-lesions"]
       | none => ([] : List String)) ∧
    ((∀ k ∈ (["WMH", "WM", "WM_no_lesions", "Diff-WM", "Diff-WM-no-lesions"] :
        List String), k ∈ exResL.map Prod.fst) ∨
     (∀ k ∈ (["WMH", "WM", "WM_no_lesions", "Diff-WM", "Diff-WM-no-lesions"] :
        List String), k ∉ exResL.map Prod.fst))) :=
  ⟨rfl, C10_result_key_invariant exInpL exResL rfl⟩
